import Mathlib

/-!
Shallow embedding of the `tracing` Go package (iskyteamdev/tracing).

The repository has two variants of the same package, used independently:
`src/tracing.go` (Jaeger exporter) and `src/unnamed/part_000` (OTLP HTTP
exporter). They are embedded in namespaces `Jaeger` and `OTLP`.

External collaborators (the OpenTelemetry SDK span object, the chi
response-writer wrapper, the Go clock) are not part of this repository;
where a claim depends on their behaviour they are modelled from the spec,
with a doc comment saying so. Everything else is translated directly from
the Go source.
-/

namespace Tracing

/-- An OpenTelemetry attribute value, as used by the source:
`attribute.String`, `semconv...Int` and `attribute.Float64`.
The only Float64 value the source records is `float64(d.Milliseconds())`,
an integer-valued float, so floats are carried as rationals (exact for
every value the program can produce below 2 to the 53rd). -/
inductive AttrValue where
  | str (s : String)
  | int (i : Int)
  | float (x : Rat)
deriving DecidableEq

/-- A span attribute: key and value, as passed to `span.SetAttributes`. -/
abbrev Attr := String × AttrValue

/-- Abstraction of static resource metadata built by `resource.New` with
the single `service.name` attribute, as both `InitTracer` variants do. -/
structure Resource where
  serviceName : String
deriving DecidableEq

/-- Modelled from the spec: an SDK span. The spec calls a span a timed
record of one traced operation with a name, attributes appended in order,
and an end event; `endCount` counts how many times `End` ran on it, and
`tracerName` and `res` record which tracer created it and the resource
metadata of the provider behind that tracer. -/
structure Span where
  tracerName : String
  res : Option Resource
  name : String
  attrs : List Attr
  endCount : Nat
deriving DecidableEq

/-- `span.SetAttributes(kvs...)`: appends the attributes in order. -/
def Span.setAttributes (s : Span) (kvs : List Attr) : Span :=
  { s with attrs := s.attrs ++ kvs }

/-- `span.End()`: marks one more end event on the span. -/
def Span.endSpan (s : Span) : Span :=
  { s with endCount := s.endCount + 1 }

/-- Modelled from the spec: the request context. The spec says the
request context carries an upstream-assigned request id
(`middleware.GetReqID`) and, after `tracer.Start`, the started span. -/
structure Ctx where
  reqID : String
  spanName : Option String
deriving DecidableEq

/-- Modelled from the spec: a tracer obtained from the global provider by
name (`otel.Tracer(name)`); it carries its instrumentation name and the
resource metadata of the provider it came from. -/
structure Tracer where
  name : String
  res : Option Resource
deriving DecidableEq

/-- Modelled from the spec: `tracer.Start(ctx, name)` returns an updated
context containing the new span together with the span itself; the span
starts with no attributes and has not been ended. -/
def Tracer.start (t : Tracer) (ctx : Ctx) (name : String) : Ctx × Span :=
  ({ ctx with spanName := some name },
   { tracerName := t.name, res := t.res, name := name, attrs := [], endCount := 0 })

/-- An abstract exporter as far as this package observes it: the transport
it was constructed for and the configuration passed to the constructor.
`jaeger.New(WithCollectorEndpoint(WithEndpoint(url)))` yields the Jaeger
collector transport; `otlptracehttp.New(WithEndpoint(e), WithInsecure())`
yields the OTLP HTTP transport with the insecure option. -/
structure Exporter where
  transport : String
  endpoint : String
  insecure : Bool
deriving DecidableEq

/-- The provider built by `sdktrace.NewTracerProvider(WithBatcher(exporter),
WithResource(res))`: it owns the exporter and the resource metadata. -/
structure TracerProvider where
  exporter : Exporter
  res : Resource
deriving DecidableEq

/-- The value returned by both `InitTracer` variants: `provider.Shutdown`,
a function tied to the provider that was just installed. -/
structure ShutdownFn where
  provider : TracerProvider
deriving DecidableEq

/-- A Go panic raised by `panic(err)` in `InitTracer`. -/
inductive GoPanic where
  | panicked (msg : String)
deriving DecidableEq

/-- One operation a handler performs on its `http.ResponseWriter`:
`WriteHeader(code)` or a body `Write`. -/
inductive WriterAction where
  | writeHeader (code : Int)
  | write (chunk : String)
deriving DecidableEq

/-- Modelled from the spec: the status captured by the response-writer
wrapper (`middleware.NewWrapResponseWriter`, external to this repository).
Per the spec the wrapper observes the status the handler writes without
altering it, defaulting to 200 if the handler sets no explicit status, per
standard HTTP semantics: the first `WriteHeader` takes effect, a body
write with no prior `WriteHeader` fixes 200, and a handler that writes
nothing yields the implicit 200. -/
def wwStatus : List WriterAction → Int
  | [] => 200
  | WriterAction.writeHeader c :: _ => c
  | WriterAction.write _ :: _ => 200

/-- The status code the handler actually writes to the response, per
standard HTTP semantics (stated independently of the wrapper model, for
comparison): the first `WriteHeader` before any body write takes effect,
a body write without a prior `WriteHeader` fixes 200, and a handler that
writes nothing gets the implicit 200. -/
def effectiveStatus : List WriterAction → Int
  | [] => 200
  | WriterAction.writeHeader c :: _ => c
  | WriterAction.write _ :: _ => 200

/-- The outcome of running the wrapped handler on a request: the writer
operations it performed, in order, and whether it panicked (in which case
`actions` are the operations performed before the panic). -/
structure HandlerOutcome where
  actions : List WriterAction
  panics : Bool
deriving DecidableEq

/-- An incoming HTTP request as the middleware reads it: method, URL path
and raw query (`r.URL.Path` does not include the query string), the
request context, the remote address, and the protocol major version. -/
structure Request where
  method : String
  urlPath : String
  urlRawQuery : String
  ctx : Ctx
  remoteAddr : String
  protoMajor : Nat
deriving DecidableEq

/-- A wrapped handler: a function of the request it is invoked with
(`next.ServeHTTP(ww, r.WithContext(ctx))`). -/
abbrev Handler := Request → HandlerOutcome

/-- `float64(time.Since(start).Milliseconds())`: the elapsed wall-clock
time between `start := time.Now()` and handler completion, in nanoseconds
(non-negative, since Go measures it on the monotonic clock), divided by
one million with truncation, then converted exactly to a float. -/
def recordedDurationMs (elapsedNs : Nat) : Rat :=
  ((elapsedNs / 1000000 : Nat) : Rat)

/-- The result of one pass of a request through the middleware: the final
span (after the deferred `span.End()`), the writer operations forwarded to
the underlying response writer, and whether the handler panic propagated. -/
structure MiddlewareResult where
  span : Span
  clientActions : List WriterAction
  panicked : Bool
deriving DecidableEq

/-- The four attributes both middlewares set before invoking the handler:
`http.method`, `http.target`, `http.request_id` (from
`middleware.GetReqID(r.Context())`) and `http.client_ip` (`r.RemoteAddr`). -/
def preAttrs (r : Request) : List Attr :=
  [ ("http.method", AttrValue.str r.method),
    ("http.target", AttrValue.str r.urlPath),
    ("http.request_id", AttrValue.str r.ctx.reqID),
    ("http.client_ip", AttrValue.str r.remoteAddr) ]

/-- The two attributes both middlewares set after the handler returns:
`http.status_code` from the wrapper and `http.duration_ms`. -/
def postAttrs (acts : List WriterAction) (elapsedNs : Nat) : List Attr :=
  [ ("http.status_code", AttrValue.int (wwStatus acts)),
    ("http.duration_ms", AttrValue.float (recordedDurationMs elapsedNs)) ]

/-- The shared body of both middleware variants from the point where the
span has been started: set the pre-handler attributes, invoke the handler
with the updated context through the wrapping writer, and on the normal
path set status and duration; the deferred `span.End()` runs on both the
normal path and the panic path. -/
def runTraced (span0 : Span) (ctx : Ctx) (next : Handler) (r : Request)
    (elapsedNs : Nat) : MiddlewareResult :=
  let span1 := span0.setAttributes (preAttrs r)
  let out := next { r with ctx := ctx }
  if out.panics then
    { span := span1.endSpan, clientActions := out.actions, panicked := true }
  else
    let span2 := span1.setAttributes (postAttrs out.actions elapsedNs)
    { span := span2.endSpan, clientActions := out.actions, panicked := false }

/-- The request the wrapped handler is invoked with: the original request
with its context replaced by the one returned by `tracer.Start`
(`r.WithContext(ctx)`). -/
def innerReq (r : Request) : Request :=
  { r with ctx := { r.ctx with spanName := some (r.method ++ " " ++ r.urlPath) } }

namespace Jaeger

/-- The process-global state the Jaeger variant touches: only the global
tracer provider registered by `otel.SetTracerProvider`. -/
structure GlobalState where
  provider : Option TracerProvider
deriving DecidableEq

/-- The process state at startup, before any `InitTracer` call. -/
def initialGlobalState : GlobalState := { provider := none }

/-- `otel.Tracer(name)`: a tracer with the given instrumentation name,
backed by the globally registered provider. -/
def otelTracer (g : GlobalState) (name : String) : Tracer :=
  { name := name, res := g.provider.map TracerProvider.res }

/-- `InitTracer` from `src/tracing.go`: build the Jaeger collector
exporter (panic on error), build the resource with the `service.name`
attribute (panic on error), build the provider with the batcher and the
resource, install it globally, and return `provider.Shutdown`. Whether
the two external constructors fail is environment-determined, so it is
passed in as `exporterErr` and `resourceErr`; a panic aborts before any
later statement runs, so on panic the global provider is untouched. -/
def InitTracer (g : GlobalState) (serviceName jaegerURL : String)
    (exporterErr resourceErr : Option String) :
    GlobalState × Except GoPanic ShutdownFn :=
  match exporterErr with
  | some e => (g, Except.error (GoPanic.panicked e))
  | none =>
    let exporter : Exporter :=
      { transport := "jaeger-collector", endpoint := jaegerURL, insecure := false }
    match resourceErr with
    | some e => (g, Except.error (GoPanic.panicked e))
    | none =>
      let res : Resource := { serviceName := serviceName }
      let provider : TracerProvider := { exporter := exporter, res := res }
      ({ provider := some provider }, Except.ok { provider := provider })

/-- `Middleware` from `src/tracing.go`: start a span named
`r.Method + " " + r.URL.Path` on the tracer `otel.Tracer("http-server")`,
defer `span.End()`, set the common attributes, invoke the handler through
the status-capturing wrapper, and on return record status and duration. -/
def Middleware (g : GlobalState) (next : Handler) (r : Request)
    (elapsedNs : Nat) : MiddlewareResult :=
  let tracer := otelTracer g "http-server"
  let p := tracer.start r.ctx (r.method ++ " " ++ r.urlPath)
  runTraced p.2 p.1 next r elapsedNs

end Jaeger

namespace OTLP

/-- The process-global state the OTLP variant touches: the global tracer
provider and the package-level `serviceName` variable. -/
structure GlobalState where
  provider : Option TracerProvider
  serviceName : String
deriving DecidableEq

/-- The process state at startup: no provider installed and the
package-level `serviceName` at its Go zero value, the empty string. -/
def initialGlobalState : GlobalState := { provider := none, serviceName := "" }

/-- `otel.Tracer(name)`: a tracer with the given instrumentation name,
backed by the globally registered provider. -/
def otelTracer (g : GlobalState) (name : String) : Tracer :=
  { name := name, res := g.provider.map TracerProvider.res }

/-- `InitTracer` from `src/unnamed/part_000`: assign the package-level
`serviceName`, build the OTLP HTTP exporter with the endpoint and the
insecure option (panic on error), build the resource with the
`service.name` attribute (panic on error), build the provider, install it
globally, and return `provider.Shutdown`. The `serviceName` assignment is
the first statement, so it takes effect even when a later constructor
panics; the global provider is untouched on panic. -/
def InitTracer (g : GlobalState) (serviceNameParam otlpEndpoint : String)
    (exporterErr resourceErr : Option String) :
    GlobalState × Except GoPanic ShutdownFn :=
  let g1 : GlobalState := { g with serviceName := serviceNameParam }
  match exporterErr with
  | some e => (g1, Except.error (GoPanic.panicked e))
  | none =>
    let exporter : Exporter :=
      { transport := "otlp-http", endpoint := otlpEndpoint, insecure := true }
    match resourceErr with
    | some e => (g1, Except.error (GoPanic.panicked e))
    | none =>
      let res : Resource := { serviceName := g1.serviceName }
      let provider : TracerProvider := { exporter := exporter, res := res }
      ({ provider := some provider, serviceName := g1.serviceName },
       Except.ok { provider := provider })

/-- `StartSpan` from `src/unnamed/part_000`: start a span with the given
name on the tracer `otel.Tracer(serviceName)`, returning the updated
context and the span. -/
def StartSpan (g : GlobalState) (ctx : Ctx) (name : String) : Ctx × Span :=
  (otelTracer g g.serviceName).start ctx name

/-- `HTTPMiddleware` from `src/unnamed/part_000`: start a span named
`r.Method + " " + r.URL.Path` via `StartSpan`, defer `span.End()`, set the
common attributes, invoke the handler through the status-capturing
wrapper, and on return record status and duration. -/
def HTTPMiddleware (g : GlobalState) (next : Handler) (r : Request)
    (elapsedNs : Nat) : MiddlewareResult :=
  let p := StartSpan g r.ctx (r.method ++ " " ++ r.urlPath)
  runTraced p.2 p.1 next r elapsedNs

end OTLP

/-- `true` exactly when an `InitTracer` call returned a shutdown function
rather than panicking. -/
def okB : Except GoPanic ShutdownFn → Bool
  | Except.ok _ => true
  | Except.error _ => false

/-! Sample data used by the witness theorems: the scenario from the spec
(a GET to /orders/42 from 10.0.0.5:1234 with request id abc-123). -/

/-- A request context carrying the upstream-assigned request id. -/
def sampleCtx : Ctx := { reqID := "abc-123", spanName := none }

/-- The GET /orders/42 request of the example scenario. -/
def sampleReq : Request :=
  { method := "GET", urlPath := "/orders/42", urlRawQuery := "", ctx := sampleCtx,
    remoteAddr := "10.0.0.5:1234", protoMajor := 1 }

/-- The same request with path /orders/43. -/
def sampleReq2 : Request := { sampleReq with urlPath := "/orders/43" }

/-- A handler that writes status 404 and a body, then returns normally. -/
def okHandler : Handler :=
  fun _ => { actions := [WriterAction.writeHeader 404, WriterAction.write "not found"],
             panics := false }

/-- A handler that returns normally without writing anything. -/
def silentHandler : Handler :=
  fun _ => { actions := [], panics := false }

/-- A handler that panics before writing anything. -/
def panicHandler : Handler :=
  fun _ => { actions := [], panics := true }

/-! Helper lemmas about the shared middleware body. -/

theorem runTraced_panic (span0 : Span) (ctx : Ctx) (next : Handler) (r : Request)
    (e : Nat) (h : (next { r with ctx := ctx }).panics = true) :
    runTraced span0 ctx next r e =
      { span := (span0.setAttributes (preAttrs r)).endSpan,
        clientActions := (next { r with ctx := ctx }).actions,
        panicked := true } := by
  simp [runTraced, h]

theorem runTraced_normal (span0 : Span) (ctx : Ctx) (next : Handler) (r : Request)
    (e : Nat) (h : (next { r with ctx := ctx }).panics = false) :
    runTraced span0 ctx next r e =
      { span := ((span0.setAttributes (preAttrs r)).setAttributes
                   (postAttrs (next { r with ctx := ctx }).actions e)).endSpan,
        clientActions := (next { r with ctx := ctx }).actions,
        panicked := false } := by
  simp [runTraced, h]

theorem runTraced_endCount (span0 : Span) (ctx : Ctx) (next : Handler) (r : Request)
    (e : Nat) :
    (runTraced span0 ctx next r e).span.endCount = span0.endCount + 1 := by
  cases h : (next { r with ctx := ctx }).panics
  · rw [runTraced_normal span0 ctx next r e h]
    simp [Span.endSpan, Span.setAttributes]
  · rw [runTraced_panic span0 ctx next r e h]
    simp [Span.endSpan, Span.setAttributes]

theorem runTraced_name (span0 : Span) (ctx : Ctx) (next : Handler) (r : Request)
    (e : Nat) :
    (runTraced span0 ctx next r e).span.name = span0.name := by
  cases h : (next { r with ctx := ctx }).panics
  · rw [runTraced_normal span0 ctx next r e h]
    simp [Span.endSpan, Span.setAttributes]
  · rw [runTraced_panic span0 ctx next r e h]
    simp [Span.endSpan, Span.setAttributes]

theorem runTraced_clientActions (span0 : Span) (ctx : Ctx) (next : Handler)
    (r : Request) (e : Nat) :
    (runTraced span0 ctx next r e).clientActions
      = (next { r with ctx := ctx }).actions := by
  cases h : (next { r with ctx := ctx }).panics
  · rw [runTraced_normal span0 ctx next r e h]
  · rw [runTraced_panic span0 ctx next r e h]

theorem runTraced_panicked (span0 : Span) (ctx : Ctx) (next : Handler)
    (r : Request) (e : Nat) :
    (runTraced span0 ctx next r e).panicked = (next { r with ctx := ctx }).panics := by
  cases h : (next { r with ctx := ctx }).panics
  · rw [runTraced_normal span0 ctx next r e h]
  · rw [runTraced_panic span0 ctx next r e h]

theorem runTraced_res (span0 : Span) (ctx : Ctx) (next : Handler) (r : Request)
    (e : Nat) :
    (runTraced span0 ctx next r e).span.res = span0.res := by
  cases h : (next { r with ctx := ctx }).panics
  · rw [runTraced_normal span0 ctx next r e h]
    simp [Span.endSpan, Span.setAttributes]
  · rw [runTraced_panic span0 ctx next r e h]
    simp [Span.endSpan, Span.setAttributes]

theorem runTraced_tracerName (span0 : Span) (ctx : Ctx) (next : Handler)
    (r : Request) (e : Nat) :
    (runTraced span0 ctx next r e).span.tracerName = span0.tracerName := by
  cases h : (next { r with ctx := ctx }).panics
  · rw [runTraced_normal span0 ctx next r e h]
    simp [Span.endSpan, Span.setAttributes]
  · rw [runTraced_panic span0 ctx next r e h]
    simp [Span.endSpan, Span.setAttributes]

theorem runTraced_attrs_congr (span0 span1 : Span) (ctx : Ctx) (next : Handler)
    (r : Request) (e : Nat) (h : span0.attrs = span1.attrs) :
    (runTraced span0 ctx next r e).span.attrs
      = (runTraced span1 ctx next r e).span.attrs := by
  cases hp : (next { r with ctx := ctx }).panics
  · rw [runTraced_normal span0 ctx next r e hp, runTraced_normal span1 ctx next r e hp]
    simp [Span.endSpan, Span.setAttributes, h]
  · rw [runTraced_panic span0 ctx next r e hp, runTraced_panic span1 ctx next r e hp]
    simp [Span.endSpan, Span.setAttributes, h]

theorem Middleware_eq_runTraced (g : Jaeger.GlobalState) (next : Handler)
    (r : Request) (e : Nat) :
    Jaeger.Middleware g next r e =
      runTraced
        { tracerName := "http-server", res := g.provider.map TracerProvider.res,
          name := r.method ++ " " ++ r.urlPath, attrs := [], endCount := 0 }
        (innerReq r).ctx next r e := rfl

theorem HTTPMiddleware_eq_runTraced (g : OTLP.GlobalState) (next : Handler)
    (r : Request) (e : Nat) :
    OTLP.HTTPMiddleware g next r e =
      runTraced
        { tracerName := g.serviceName, res := g.provider.map TracerProvider.res,
          name := r.method ++ " " ++ r.urlPath, attrs := [], endCount := 0 }
        (innerReq r).ctx next r e := rfl

theorem innerReq_ctx_update (r : Request) : { r with ctx := (innerReq r).ctx } = innerReq r := rfl

theorem wwStatus_eq_effectiveStatus (acts : List WriterAction) :
    wwStatus acts = effectiveStatus acts := by
  cases acts with
  | nil => rfl
  | cons a rest => cases a <;> rfl

theorem method_space_path_inj (m p₁ p₂ : String) (h : p₁ ≠ p₂) :
    m ++ " " ++ p₁ ≠ m ++ " " ++ p₂ := by
  intro heq
  apply h
  have hd := congrArg String.data heq
  simp only [String.data_append] at hd
  have hdp := List.append_cancel_left hd
  exact String.toList_inj.mp hdp

/-- C1: for every request through either middleware variant, exactly one
span is created (the body executes its single `tracer.Start` call exactly
once, which the embedding reflects structurally) and that span is ended
exactly once: the final end count is 1 both when the wrapped handler
returns normally and when it panics, because `span.End` is deferred. -/
theorem span_created_and_ended_exactly_once (gJ : Jaeger.GlobalState)
    (gO : OTLP.GlobalState) (next : Handler) (r : Request) (e : Nat) :
    (Jaeger.Middleware gJ next r e).span.endCount = 1 ∧
    (OTLP.HTTPMiddleware gO next r e).span.endCount = 1 := by
  rw [Middleware_eq_runTraced, HTTPMiddleware_eq_runTraced,
    runTraced_endCount, runTraced_endCount]
  exact ⟨rfl, rfl⟩

/-- C3: both middleware variants name the span exactly
`method ++ " " ++ path`; the name does not depend on the query string, and
two requests with the same method and different paths get distinct names. -/
theorem span_name_is_method_space_path (gJ : Jaeger.GlobalState)
    (gO : OTLP.GlobalState) (next : Handler) (r : Request) (e : Nat) :
    (Jaeger.Middleware gJ next r e).span.name = r.method ++ " " ++ r.urlPath ∧
    (OTLP.HTTPMiddleware gO next r e).span.name = r.method ++ " " ++ r.urlPath ∧
    (∀ q, (Jaeger.Middleware gJ next { r with urlRawQuery := q } e).span.name
        = r.method ++ " " ++ r.urlPath) ∧
    (∀ r₂ : Request, r₂.method = r.method → r₂.urlPath ≠ r.urlPath →
      (Jaeger.Middleware gJ next r₂ e).span.name
        ≠ (Jaeger.Middleware gJ next r e).span.name) ∧
    (∀ r₂ : Request, r₂.method = r.method → r₂.urlPath ≠ r.urlPath →
      (OTLP.HTTPMiddleware gO next r₂ e).span.name
        ≠ (OTLP.HTTPMiddleware gO next r e).span.name) := by
  refine ⟨?_, ?_, ?_, ?_, ?_⟩
  · rw [Middleware_eq_runTraced, runTraced_name]
  · rw [HTTPMiddleware_eq_runTraced, runTraced_name]
  · intro q
    rw [Middleware_eq_runTraced, runTraced_name]
  · intro r₂ hm hp
    rw [Middleware_eq_runTraced, runTraced_name, Middleware_eq_runTraced, runTraced_name]
    rw [hm]
    exact method_space_path_inj r.method r₂.urlPath r.urlPath hp
  · intro r₂ hm hp
    rw [HTTPMiddleware_eq_runTraced, runTraced_name, HTTPMiddleware_eq_runTraced,
      runTraced_name]
    rw [hm]
    exact method_space_path_inj r.method r₂.urlPath r.urlPath hp

/-- Witness for C3 at the example scenario: GET /orders/42 yields span name
"GET /orders/42", and GET /orders/43 yields a different span name. -/
theorem span_name_is_method_space_path_witness :
    (Jaeger.Middleware Jaeger.initialGlobalState okHandler sampleReq 5).span.name
      = "GET /orders/42" ∧
    (Jaeger.Middleware Jaeger.initialGlobalState okHandler sampleReq2 5).span.name
      ≠ (Jaeger.Middleware Jaeger.initialGlobalState okHandler sampleReq 5).span.name := by
  have t := span_name_is_method_space_path Jaeger.initialGlobalState
    OTLP.initialGlobalState okHandler sampleReq 5
  refine ⟨?_, t.2.2.2.1 sampleReq2 rfl (by decide)⟩
  rw [t.1]
  rfl

/-- C8: the middleware is transparent to the request it instruments: the
writer operations reaching the client are exactly those the handler
performed, the middleware itself introduces no failure (it propagates the
handler outcome unchanged), the wrapper that computes the recorded status
observes exactly the status the handler effectively wrote, and for a
handler whose behaviour does not depend on the request context the
response equals what the handler produces without the middleware. -/
theorem middleware_transparent (gJ : Jaeger.GlobalState) (gO : OTLP.GlobalState)
    (next : Handler) (r : Request) (e : Nat) :
    (Jaeger.Middleware gJ next r e).clientActions = (next (innerReq r)).actions ∧
    (Jaeger.Middleware gJ next r e).panicked = (next (innerReq r)).panics ∧
    (OTLP.HTTPMiddleware gO next r e).clientActions = (next (innerReq r)).actions ∧
    (OTLP.HTTPMiddleware gO next r e).panicked = (next (innerReq r)).panics ∧
    (∀ acts, wwStatus acts = effectiveStatus acts) ∧
    ((∀ c, next { r with ctx := c } = next r) →
      (Jaeger.Middleware gJ next r e).clientActions = (next r).actions ∧
      (OTLP.HTTPMiddleware gO next r e).clientActions = (next r).actions) := by
  refine ⟨?_, ?_, ?_, ?_, ?_, ?_⟩
  · rw [Middleware_eq_runTraced, runTraced_clientActions, innerReq_ctx_update]
  · rw [Middleware_eq_runTraced, runTraced_panicked, innerReq_ctx_update]
  · rw [HTTPMiddleware_eq_runTraced, runTraced_clientActions, innerReq_ctx_update]
  · rw [HTTPMiddleware_eq_runTraced, runTraced_panicked, innerReq_ctx_update]
  · intro acts
    cases acts with
    | nil => rfl
    | cons a rest => cases a <;> rfl
  · intro hc
    have h₁ : next (innerReq r) = next r := by
      have := hc (innerReq r).ctx
      rw [innerReq_ctx_update] at this
      exact this
    constructor
    · rw [Middleware_eq_runTraced, runTraced_clientActions, innerReq_ctx_update, h₁]
    · rw [HTTPMiddleware_eq_runTraced, runTraced_clientActions, innerReq_ctx_update, h₁]

/-- Witness for C8 at a context-independent handler: the client receives
exactly the 404 header and body the handler wrote, with the middleware
installed. -/
theorem middleware_transparent_witness :
    (Jaeger.Middleware Jaeger.initialGlobalState okHandler sampleReq 5).clientActions
      = [WriterAction.writeHeader 404, WriterAction.write "not found"] ∧
    (OTLP.HTTPMiddleware OTLP.initialGlobalState okHandler sampleReq 5).clientActions
      = [WriterAction.writeHeader 404, WriterAction.write "not found"] := by
  have t := (middleware_transparent Jaeger.initialGlobalState OTLP.initialGlobalState
    okHandler sampleReq 5).2.2.2.2.2 (fun _ => rfl)
  exact ⟨t.1.trans rfl, t.2.trans rfl⟩

/-- C2: when the handler returns normally, the `http.status_code`
attribute recorded on the span equals the status the handler effectively
wrote to the response, and a handler that writes no explicit status
(performs no `WriteHeader`) is recorded as 200. -/
theorem status_code_attribute (gJ : Jaeger.GlobalState) (gO : OTLP.GlobalState)
    (next : Handler) (r : Request) (e : Nat)
    (h : (next (innerReq r)).panics = false) :
    List.lookup "http.status_code" (Jaeger.Middleware gJ next r e).span.attrs
      = some (AttrValue.int (effectiveStatus (next (innerReq r)).actions)) ∧
    List.lookup "http.status_code" (OTLP.HTTPMiddleware gO next r e).span.attrs
      = some (AttrValue.int (effectiveStatus (next (innerReq r)).actions)) ∧
    (∀ acts, (∀ c, WriterAction.writeHeader c ∉ acts) → effectiveStatus acts = 200) := by
  have h' : (next { r with ctx := (innerReq r).ctx }).panics = false := by
    rw [innerReq_ctx_update]
    exact h
  refine ⟨?_, ?_, ?_⟩
  · rw [Middleware_eq_runTraced, runTraced_normal _ _ _ _ _ h']
    simp [Span.endSpan, Span.setAttributes, preAttrs, postAttrs, innerReq_ctx_update,
      wwStatus_eq_effectiveStatus, List.lookup]
  · rw [HTTPMiddleware_eq_runTraced, runTraced_normal _ _ _ _ _ h']
    simp [Span.endSpan, Span.setAttributes, preAttrs, postAttrs, innerReq_ctx_update,
      wwStatus_eq_effectiveStatus, List.lookup]
  · intro acts hno
    cases acts with
    | nil => rfl
    | cons a rest =>
      cases a with
      | writeHeader c => exact absurd (List.mem_cons_self _ _) (hno c)
      | write s => rfl

/-- Witness for C2: the handler of the example scenario writes 404 and the
span records `http.status_code = 404`; the silent handler writes nothing
and the span records `http.status_code = 200`. -/
theorem status_code_attribute_witness :
    List.lookup "http.status_code"
        (Jaeger.Middleware Jaeger.initialGlobalState okHandler sampleReq 5).span.attrs
      = some (AttrValue.int 404) ∧
    List.lookup "http.status_code"
        (OTLP.HTTPMiddleware OTLP.initialGlobalState silentHandler sampleReq 5).span.attrs
      = some (AttrValue.int 200) := by
  have t₁ := status_code_attribute Jaeger.initialGlobalState OTLP.initialGlobalState
    okHandler sampleReq 5 rfl
  have t₂ := status_code_attribute Jaeger.initialGlobalState OTLP.initialGlobalState
    silentHandler sampleReq 5 rfl
  exact ⟨t₁.1.trans rfl, t₂.2.1.trans rfl⟩

/-- C7: when the handler returns normally, the recorded `http.duration_ms`
is the elapsed wall-clock nanoseconds between span start and handler
completion truncated to milliseconds; it is non-negative, and a longer
elapsed time never yields a smaller recorded value. -/
theorem duration_ms_attribute (gJ : Jaeger.GlobalState) (gO : OTLP.GlobalState)
    (next : Handler) (r : Request) (e e₁ e₂ : Nat)
    (h : (next (innerReq r)).panics = false) :
    List.lookup "http.duration_ms" (Jaeger.Middleware gJ next r e).span.attrs
      = some (AttrValue.float (recordedDurationMs e)) ∧
    List.lookup "http.duration_ms" (OTLP.HTTPMiddleware gO next r e).span.attrs
      = some (AttrValue.float (recordedDurationMs e)) ∧
    0 ≤ recordedDurationMs e ∧
    (e₁ ≤ e₂ → recordedDurationMs e₁ ≤ recordedDurationMs e₂) := by
  have h' : (next { r with ctx := (innerReq r).ctx }).panics = false := by
    rw [innerReq_ctx_update]
    exact h
  refine ⟨?_, ?_, ?_, ?_⟩
  · rw [Middleware_eq_runTraced, runTraced_normal _ _ _ _ _ h']
    simp [Span.endSpan, Span.setAttributes, preAttrs, postAttrs, List.lookup]
  · rw [HTTPMiddleware_eq_runTraced, runTraced_normal _ _ _ _ _ h']
    simp [Span.endSpan, Span.setAttributes, preAttrs, postAttrs, List.lookup]
  · exact Nat.cast_nonneg _
  · intro hle
    unfold recordedDurationMs
    exact_mod_cast Nat.div_le_div_right hle

/-- Witness for C7: a request taking 5000000 ns records a duration of 5 ms,
and 1000000 ns against 2000000 ns is recorded monotonically. -/
theorem duration_ms_attribute_witness :
    List.lookup "http.duration_ms"
        (Jaeger.Middleware Jaeger.initialGlobalState silentHandler sampleReq
          5000000).span.attrs
      = some (AttrValue.float 5) ∧
    recordedDurationMs 1000000 ≤ recordedDurationMs 2000000 := by
  have t := duration_ms_attribute Jaeger.initialGlobalState OTLP.initialGlobalState
    silentHandler sampleReq 5000000 1000000 2000000 rfl
  refine ⟨t.1.trans ?_, t.2.2.2 (by norm_num)⟩
  norm_num [recordedDurationMs]

/-- C9: when the handler panics, the deferred completion still ends the
span exactly once, but the span carries only the four attributes set
before the handler ran; neither `http.status_code` nor `http.duration_ms`
is attached. -/
theorem panic_path_attributes (gJ : Jaeger.GlobalState) (gO : OTLP.GlobalState)
    (next : Handler) (r : Request) (e : Nat)
    (h : (next (innerReq r)).panics = true) :
    (Jaeger.Middleware gJ next r e).span.attrs = preAttrs r ∧
    (OTLP.HTTPMiddleware gO next r e).span.attrs = preAttrs r ∧
    (Jaeger.Middleware gJ next r e).span.endCount = 1 ∧
    (OTLP.HTTPMiddleware gO next r e).span.endCount = 1 ∧
    List.lookup "http.status_code" (Jaeger.Middleware gJ next r e).span.attrs = none ∧
    List.lookup "http.duration_ms" (Jaeger.Middleware gJ next r e).span.attrs = none ∧
    List.lookup "http.status_code" (OTLP.HTTPMiddleware gO next r e).span.attrs = none ∧
    List.lookup "http.duration_ms" (OTLP.HTTPMiddleware gO next r e).span.attrs = none := by
  have h' : (next { r with ctx := (innerReq r).ctx }).panics = true := by
    rw [innerReq_ctx_update]
    exact h
  rw [Middleware_eq_runTraced, HTTPMiddleware_eq_runTraced,
    runTraced_panic _ _ _ _ _ h', runTraced_panic _ _ _ _ _ h']
  refine ⟨?_, ?_, rfl, rfl, ?_, ?_, ?_, ?_⟩ <;>
    simp [Span.endSpan, Span.setAttributes, preAttrs, List.lookup]

/-- Witness for C9: a panicking handler leaves a span that is ended once
and carries exactly the four pre-handler attributes of the example
scenario. -/
theorem panic_path_attributes_witness :
    (Jaeger.Middleware Jaeger.initialGlobalState panicHandler sampleReq 5).span.attrs
      = [ ("http.method", AttrValue.str "GET"),
          ("http.target", AttrValue.str "/orders/42"),
          ("http.request_id", AttrValue.str "abc-123"),
          ("http.client_ip", AttrValue.str "10.0.0.5:1234") ] ∧
    (Jaeger.Middleware Jaeger.initialGlobalState panicHandler sampleReq 5).span.endCount
      = 1 := by
  have t := panic_path_attributes Jaeger.initialGlobalState OTLP.initialGlobalState
    panicHandler sampleReq 5 rfl
  exact ⟨t.1.trans rfl, t.2.2.1⟩

/-- C4: if either external constructor fails (the exporter or the resource
builder), both `InitTracer` variants panic immediately: no shutdown
function is returned and the global tracer provider is left untouched, so
the process never continues with tracing half-configured. -/
theorem init_failure_aborts (gJ : Jaeger.GlobalState) (gO : OTLP.GlobalState)
    (sname ep : String) (ee re : Option String) (h : ee ≠ none ∨ re ≠ none) :
    (∃ msg, (Jaeger.InitTracer gJ sname ep ee re).2
      = Except.error (GoPanic.panicked msg)) ∧
    (Jaeger.InitTracer gJ sname ep ee re).1.provider = gJ.provider ∧
    (∃ msg, (OTLP.InitTracer gO sname ep ee re).2
      = Except.error (GoPanic.panicked msg)) ∧
    (OTLP.InitTracer gO sname ep ee re).1.provider = gO.provider := by
  cases ee with
  | some m => exact ⟨⟨m, rfl⟩, rfl, ⟨m, rfl⟩, rfl⟩
  | none =>
    cases re with
    | some m => exact ⟨⟨m, rfl⟩, rfl, ⟨m, rfl⟩, rfl⟩
    | none =>
      rcases h with h | h <;> exact absurd rfl h

/-- Witness for C4: a failing exporter constructor leaves the global
provider uninstalled in both variants. -/
theorem init_failure_aborts_witness :
    (Jaeger.InitTracer Jaeger.initialGlobalState "svc" "http://jaeger:14268"
        (some "connection refused") none).1.provider = none ∧
    (OTLP.InitTracer OTLP.initialGlobalState "svc" "collector:4318"
        (some "connection refused") none).1.provider = none := by
  have t₁ := init_failure_aborts Jaeger.initialGlobalState OTLP.initialGlobalState
    "svc" "http://jaeger:14268" (some "connection refused") none
    (Or.inl (by simp))
  have t₂ := init_failure_aborts Jaeger.initialGlobalState OTLP.initialGlobalState
    "svc" "collector:4318" (some "connection refused") none
    (Or.inl (by simp))
  exact ⟨t₁.2.1.trans rfl, t₂.2.2.2.trans rfl⟩

/-- C5: calling `InitTracer` twice (both calls succeeding) is
last-write-wins on the global state: the resulting global state equals the
one produced by the second call alone, and every span created afterwards
(directly through a tracer, through `StartSpan`, or by a request through
the middleware) carries the second service name as its resource metadata. -/
theorem init_twice_last_write_wins (gJ : Jaeger.GlobalState) (gO : OTLP.GlobalState)
    (s₁ s₂ ep₁ ep₂ instName nm : String) (ctx : Ctx) (next : Handler)
    (r : Request) (e : Nat) :
    ((Jaeger.InitTracer (Jaeger.InitTracer gJ s₁ ep₁ none none).1 s₂ ep₂ none none).1
      = (Jaeger.InitTracer gJ s₂ ep₂ none none).1) ∧
    (((Jaeger.otelTracer
        (Jaeger.InitTracer (Jaeger.InitTracer gJ s₁ ep₁ none none).1
          s₂ ep₂ none none).1 instName).start ctx nm).2.res
      = some { serviceName := s₂ }) ∧
    ((Jaeger.Middleware
        (Jaeger.InitTracer (Jaeger.InitTracer gJ s₁ ep₁ none none).1
          s₂ ep₂ none none).1 next r e).span.res
      = some { serviceName := s₂ }) ∧
    ((OTLP.InitTracer (OTLP.InitTracer gO s₁ ep₁ none none).1 s₂ ep₂ none none).1
      = (OTLP.InitTracer gO s₂ ep₂ none none).1) ∧
    ((OTLP.StartSpan
        (OTLP.InitTracer (OTLP.InitTracer gO s₁ ep₁ none none).1
          s₂ ep₂ none none).1 ctx nm).2.res
      = some { serviceName := s₂ }) ∧
    ((OTLP.HTTPMiddleware
        (OTLP.InitTracer (OTLP.InitTracer gO s₁ ep₁ none none).1
          s₂ ep₂ none none).1 next r e).span.res
      = some { serviceName := s₂ }) := by
  refine ⟨rfl, rfl, ?_, rfl, rfl, ?_⟩
  · rw [Middleware_eq_runTraced, runTraced_res]
    rfl
  · rw [HTTPMiddleware_eq_runTraced, runTraced_res]
    rfl

/-- C6: for the same service name, endpoint and request, the Jaeger and
OTLP variants are interchangeable: the middlewares produce spans with the
same name, the same attribute list and the same end count, forward the
same writer operations, and propagate the same outcome; the `InitTracer`
functions succeed under exactly the same conditions and install providers
with the same resource metadata and the same configured endpoint. -/
theorem variants_interchangeable (gJ : Jaeger.GlobalState) (gO : OTLP.GlobalState)
    (s ep : String) (ee re : Option String) (next : Handler) (r : Request) (e : Nat) :
    (Jaeger.Middleware gJ next r e).span.name
      = (OTLP.HTTPMiddleware gO next r e).span.name ∧
    (Jaeger.Middleware gJ next r e).span.attrs
      = (OTLP.HTTPMiddleware gO next r e).span.attrs ∧
    (Jaeger.Middleware gJ next r e).span.endCount
      = (OTLP.HTTPMiddleware gO next r e).span.endCount ∧
    (Jaeger.Middleware gJ next r e).clientActions
      = (OTLP.HTTPMiddleware gO next r e).clientActions ∧
    (Jaeger.Middleware gJ next r e).panicked
      = (OTLP.HTTPMiddleware gO next r e).panicked ∧
    okB (Jaeger.InitTracer gJ s ep ee re).2 = okB (OTLP.InitTracer gO s ep ee re).2 ∧
    (Jaeger.InitTracer gJ s ep none none).1.provider.map TracerProvider.res
      = (OTLP.InitTracer gO s ep none none).1.provider.map TracerProvider.res ∧
    (Jaeger.InitTracer gJ s ep none none).1.provider.map
        (fun p => p.exporter.endpoint)
      = (OTLP.InitTracer gO s ep none none).1.provider.map
        (fun p => p.exporter.endpoint) := by
  rw [Middleware_eq_runTraced, HTTPMiddleware_eq_runTraced]
  refine ⟨?_, ?_, ?_, ?_, ?_, ?_, rfl, rfl⟩
  · rw [runTraced_name, runTraced_name]
  · exact runTraced_attrs_congr _ _ _ _ _ _ rfl
  · rw [runTraced_endCount, runTraced_endCount]
  · rw [runTraced_clientActions, runTraced_clientActions]
  · rw [runTraced_panicked, runTraced_panicked]
  · cases ee with
    | some m => rfl
    | none =>
      cases re with
      | some m => rfl
      | none => rfl

/-- C10: `StartSpan` names its tracer by the package-global `serviceName`;
in the startup state, before any `InitTracer` call, that global is the
empty string (the Go zero value), and `StartSpan` still returns the
updated context and a span with the requested name without failing — so a
request through `HTTPMiddleware` in that state gets a span whose tracer
name is the empty string. -/
theorem startspan_before_init (g : OTLP.GlobalState) (ctx : Ctx) (nm : String)
    (next : Handler) (r : Request) (e : Nat) :
    (OTLP.StartSpan g ctx nm).2.tracerName = g.serviceName ∧
    OTLP.initialGlobalState.serviceName = "" ∧
    (OTLP.StartSpan OTLP.initialGlobalState ctx nm).2.tracerName = "" ∧
    (OTLP.StartSpan OTLP.initialGlobalState ctx nm).1
      = { ctx with spanName := some nm } ∧
    (OTLP.StartSpan OTLP.initialGlobalState ctx nm).2.name = nm ∧
    (OTLP.HTTPMiddleware OTLP.initialGlobalState next r e).span.tracerName = "" := by
  refine ⟨rfl, rfl, rfl, rfl, rfl, ?_⟩
  rw [HTTPMiddleware_eq_runTraced, runTraced_tracerName]
  rfl

end Tracing
